import Mathlib

/-!
Verification of the BFP safety monitoring and alerting engine.

The definitions below are a shallow embedding of the Python source in
`backend/app/safety_service.py` (class `SafetyMonitor`), the alert data
model of `backend/app/models.py`, and the alert response route of
`backend/app/routes.py` (`respond_to_alert`).

Modelling conventions:
- Python floats are modelled as real numbers (`ℝ`); `float('inf')` values
  flowing out of `find_nearest_planned_location` are modelled with `EReal`
  (extended reals), whose `⊤` plays the role of `inf`.
- Timestamps (`datetime`) are modelled as real numbers measured in minutes,
  so `timedelta(minutes=15)` becomes `+ 15`.  The two consecutive
  `datetime.utcnow()` calls inside one alert construction are modelled as a
  single instant `now` (the call time of the operation).
- Python string formatting of a distance into an alert message
  (`f"... {distance_km:.1f}km ..."`) is modelled by the inductive type
  `AlertMessage`, which records which format string was used and the exact
  distance that would be formatted.
- Database access is modelled by passing the result of the corresponding
  query (the list of planned locations of the trip, the descending-by-
  timestamp list of recent location updates) directly as an argument.
-/

open scoped Classical

/-- Planned location row (`models.PlannedLocation`): the engine reads only the
coordinates; name and radius are carried along as data. -/
structure PlannedLocation where
  name : String
  latitude : ℝ
  longitude : ℝ
  radius_meters : ℤ

/-- Location update row (`models.LocationUpdate`), the fields the engine reads. -/
structure LocationUpdate where
  latitude : ℝ
  longitude : ℝ
  timestamp : ℝ
  user_id : ℕ
  trip_id : ℕ

/-- Trip row (`models.Trip`), the fields the engine reads. -/
structure Trip where
  id : ℕ
  monitoring_enabled : Bool
  deviation_threshold_km : ℝ

/-- Alert message content (`models.SafetyAlert.message`).  Each constructor
stands for one of the format strings used in the source, carrying the exact
distance value that the source would format to one decimal place. -/
inductive AlertMessage where
  | deviationMsg (distance_km : EReal)
  | stationaryMsg (distance_km : EReal)
  | manualMsg (text : String)

/-- Safety alert row (`models.SafetyAlert`).  `status` is a free string as in
the source (column comment: "active", "responded_safe", "escalated"). -/
structure SafetyAlert where
  alert_type : String
  status : String
  title : String
  message : AlertMessage
  latitude : ℝ
  longitude : ℝ
  distance_from_planned_km : Option EReal
  triggered_at : ℝ
  response_deadline : ℝ
  responded_at : Option ℝ
  response_message : Option String
  user_id : ℕ
  trip_id : ℕ

namespace SafetyMonitor

/-- Python `math.radians`. -/
noncomputable def radians (x : ℝ) : ℝ := x * Real.pi / 180

/-- Python `math.atan2 y x` (two-argument arctangent). -/
noncomputable def atan2 (y x : ℝ) : ℝ :=
  if 0 < x then Real.arctan (y / x)
  else if x < 0 then
    (if 0 ≤ y then Real.arctan (y / x) + Real.pi else Real.arctan (y / x) - Real.pi)
  else
    (if 0 < y then Real.pi / 2 else if y < 0 then -(Real.pi / 2) else 0)

/-- `SafetyMonitor.calculate_distance_km`: haversine great-circle distance in
kilometres between two (latitude, longitude) pairs given in degrees. -/
noncomputable def calculate_distance_km (lat1 lon1 lat2 lon2 : ℝ) : ℝ :=
  let R : ℝ := 6371
  let lat1_rad := radians lat1
  let lat2_rad := radians lat2
  let delta_lat := radians (lat2 - lat1)
  let delta_lon := radians (lon2 - lon1)
  let a := Real.sin (delta_lat / 2) ^ 2 +
    Real.cos lat1_rad * Real.cos lat2_rad * Real.sin (delta_lon / 2) ^ 2
  let c := 2 * atan2 (Real.sqrt a) (Real.sqrt (1 - a))
  R * c

/-- Distance from the point `(lat, lon)` to a planned location, as computed in
the loop body of `find_nearest_planned_location`. -/
noncomputable def locDist (lat lon : ℝ) (location : PlannedLocation) : ℝ :=
  calculate_distance_km lat lon location.latitude location.longitude

/-- The `for location in planned_locations` loop of
`find_nearest_planned_location`: the accumulator `(nearest_location,
min_distance)` is updated whenever a strictly smaller distance is found. -/
noncomputable def find_nearest_loop (lat lon : ℝ) :
    Option PlannedLocation × EReal → List PlannedLocation → Option PlannedLocation × EReal
  | acc, [] => acc
  | acc, location :: rest =>
    if ((locDist lat lon location : ℝ) : EReal) < acc.2 then
      find_nearest_loop lat lon (some location, ((locDist lat lon location : ℝ) : EReal)) rest
    else
      find_nearest_loop lat lon acc rest

/-- `SafetyMonitor.find_nearest_planned_location`: returns `(None, inf)` on an
empty list, otherwise scans the list keeping the first location achieving the
minimum distance.  `float('inf')` is modelled by `(⊤ : EReal)`. -/
noncomputable def find_nearest_planned_location (current_lat current_lon : ℝ)
    (planned_locations : List PlannedLocation) : Option PlannedLocation × EReal :=
  match planned_locations with
  | [] => (none, (⊤ : EReal))
  | _ => find_nearest_loop current_lat current_lon (none, (⊤ : EReal)) planned_locations

/-- Specification-side description of the scan loop of
`find_nearest_planned_location` once the accumulator holds a candidate `b`:
the first element of the remaining list achieving the minimum distance. -/
noncomputable def firstNearest (lat lon : ℝ) :
    PlannedLocation → List PlannedLocation → PlannedLocation
  | b, [] => b
  | b, x :: xs =>
    if locDist lat lon x < locDist lat lon b then firstNearest lat lon x xs
    else firstNearest lat lon b xs

/-- `SafetyMonitor.check_deviation_alert`.  The database query for the planned
locations of the trip is modelled by the `planned_locations` argument; `now` is
the instant of the `datetime.utcnow()` calls. -/
noncomputable def check_deviation_alert (now : ℝ) (planned_locations : List PlannedLocation)
    (location_update : LocationUpdate) (trip : Trip) : Option SafetyAlert :=
  match planned_locations with
  | [] => none
  | _ =>
    let r := find_nearest_planned_location location_update.latitude
      location_update.longitude planned_locations
    if r.2 > ((trip.deviation_threshold_km : ℝ) : EReal) then
      some
        { alert_type := "deviation"
          status := "active"
          title := "Location Deviation Detected"
          message := AlertMessage.deviationMsg r.2
          latitude := location_update.latitude
          longitude := location_update.longitude
          distance_from_planned_km := some r.2
          triggered_at := now
          response_deadline := now + 15
          responded_at := none
          response_message := none
          user_id := location_update.user_id
          trip_id := trip.id }
    else none

/-- `SafetyMonitor.check_stationary_alert`.  `recent_locations` models the
database query result: the location updates of the user on this trip within
the trailing four-hour window, ordered by timestamp descending (most recent
first).  The `stationary` flag computed by the source loop (which breaks on the
first sample farther than 0.5 km from the latest one) is the proposition that
every other sample lies within 0.5 km of the latest. -/
noncomputable def check_stationary_alert (now : ℝ) (recent_locations : List LocationUpdate)
    (planned_locations : List PlannedLocation) (user_id : ℕ) (trip : Trip) :
    Option SafetyAlert :=
  if recent_locations.length < 2 then none
  else
    match recent_locations with
    | [] => none
    | latest_location :: rest =>
      if ∀ location ∈ rest,
          calculate_distance_km latest_location.latitude latest_location.longitude
            location.latitude location.longitude ≤ 0.5 then
        let r := find_nearest_planned_location latest_location.latitude
          latest_location.longitude planned_locations
        if r.2 > ((1 : ℝ) : EReal) then
          some
            { alert_type := "stationary"
              status := "active"
              title := "Stationary Alert"
              message := AlertMessage.stationaryMsg r.2
              latitude := latest_location.latitude
              longitude := latest_location.longitude
              distance_from_planned_km := some r.2
              triggered_at := now
              response_deadline := now + 15
              responded_at := none
              response_message := none
              user_id := user_id
              trip_id := trip.id }
        else none
      else none

end SafetyMonitor

/-- Request body of the respond route (`schemas.AlertResponse`): a free-form
response string and an optional message. -/
structure AlertResponse where
  response : String
  message : Option String

/-- Python `x or default` for an optional string: `None` and the empty string
are both falsy, so either is replaced by the default. -/
def orDefault (m : Option String) (default : String) : String :=
  match m with
  | none => default
  | some s => if s = "" then default else s

/-- The alert-updating core of `routes.respond_to_alert` (after the alert has
been fetched): mutates the alert according to the response kind and returns the
updated alert together with the success message of the route.  The source
performs no check of the current status and has no failure path at this point;
`responded_at` is always overwritten with the current time. -/
def respond_to_alert (now : ℝ) (alert : SafetyAlert) (response : AlertResponse) :
    SafetyAlert × String :=
  let alert1 :=
    if response.response = "safe" then
      { alert with
          status := "responded_safe"
          response_message := some (orDefault response.message "User confirmed they are safe") }
    else if response.response = "help" then
      { alert with
          status := "responded_help"
          response_message := some (orDefault response.message "User requested help") }
    else alert
  let alert2 := { alert1 with responded_at := some now }
  (alert2, "Alert response recorded: " ++ response.response)

/-- Modelled from the spec: no deadline sweep or `checkDeadline` operation
exists anywhere in the source repository (the spec flags the missing sweep as a
gap that leaves the `escalated` status unreachable).  Modelled from the words:
if `status == active` and `now > response_deadline`, transition to `escalated`;
no other field changes and no other state is touched. -/
noncomputable def checkDeadline (alert : SafetyAlert) (now : ℝ) : SafetyAlert :=
  if alert.status = "active" ∧ alert.response_deadline < now then
    { alert with status := "escalated" }
  else alert

/-! Concrete inputs used to evaluate the embedded operations at specific
points (all sample coordinates lie on the equator, where the haversine
distance has the closed form proved in `calculate_distance_km_equator`). -/

/-- A planned location on the equator at longitude 1 degree (about 111 km from
the origin). -/
def wpEq1 : PlannedLocation :=
  { name := "waypoint", latitude := 0, longitude := 1, radius_meters := 500 }

/-- A location sample at the origin. -/
def luO : LocationUpdate :=
  { latitude := 0, longitude := 0, timestamp := 2, user_id := 1, trip_id := 1 }

/-- A location sample 0.004 degrees east of the origin (about 0.44 km). -/
def luEast : LocationUpdate :=
  { latitude := 0, longitude := 0.004, timestamp := 1, user_id := 1, trip_id := 1 }

/-- A location sample 0.004 degrees west of the origin (about 0.44 km). -/
def luWest : LocationUpdate :=
  { latitude := 0, longitude := -0.004, timestamp := 0, user_id := 1, trip_id := 1 }

/-- A second location sample at the origin, earlier than `luO`. -/
def luOb : LocationUpdate :=
  { latitude := 0, longitude := 0, timestamp := 1, user_id := 1, trip_id := 1 }

/-- A location sample 0.02 degrees east of the origin (about 2.2 km). -/
def luFar : LocationUpdate :=
  { latitude := 0, longitude := 0.02, timestamp := 1, user_id := 1, trip_id := 1 }

/-- A trip with monitoring enabled and the default deviation threshold 2.0 km. -/
def tripA : Trip := { id := 1, monitoring_enabled := true, deviation_threshold_km := 2 }

/-- An alert in the `active` state with response deadline 100. -/
def alertActive : SafetyAlert :=
  { alert_type := "deviation", status := "active", title := "Location Deviation Detected",
    message := AlertMessage.manualMsg "msg", latitude := 0, longitude := 0,
    distance_from_planned_km := none, triggered_at := 85, response_deadline := 100,
    responded_at := none, response_message := none, user_id := 1, trip_id := 1 }

/-- An alert in the terminal `escalated` state. -/
def alertEscalated : SafetyAlert :=
  { alert_type := "deviation", status := "escalated", title := "Location Deviation Detected",
    message := AlertMessage.manualMsg "msg", latitude := 0, longitude := 0,
    distance_from_planned_km := none, triggered_at := 85, response_deadline := 100,
    responded_at := none, response_message := none, user_id := 1, trip_id := 1 }

/-- The deviation alert produced by `check_deviation_alert` at time 0 for the
sample `luO` against the single waypoint `wpEq1` on trip `tripA`. -/
noncomputable def devAlertEx : SafetyAlert :=
  { alert_type := "deviation", status := "active", title := "Location Deviation Detected",
    message := AlertMessage.deviationMsg ((SafetyMonitor.locDist 0 0 wpEq1 : ℝ) : EReal),
    latitude := 0, longitude := 0,
    distance_from_planned_km := some ((SafetyMonitor.locDist 0 0 wpEq1 : ℝ) : EReal),
    triggered_at := 0, response_deadline := 0 + 15,
    responded_at := none, response_message := none, user_id := 1, trip_id := 1 }

/-- The stationary alert produced by `check_stationary_alert` at time 0 for the
window `[luO, luOb]` against the single waypoint `wpEq1` on trip `tripA`. -/
noncomputable def staAlertEx : SafetyAlert :=
  { alert_type := "stationary", status := "active", title := "Stationary Alert",
    message := AlertMessage.stationaryMsg ((SafetyMonitor.locDist 0 0 wpEq1 : ℝ) : EReal),
    latitude := 0, longitude := 0,
    distance_from_planned_km := some ((SafetyMonitor.locDist 0 0 wpEq1 : ℝ) : EReal),
    triggered_at := 0, response_deadline := 0 + 15,
    responded_at := none, response_message := none, user_id := 1, trip_id := 1 }

namespace SafetyMonitor

/-- Unfolding equation for `calculate_distance_km`. -/
lemma calculate_distance_km_eq (lat1 lon1 lat2 lon2 : ℝ) :
    calculate_distance_km lat1 lon1 lat2 lon2 =
      6371 * (2 * atan2
        (Real.sqrt (Real.sin (radians (lat2 - lat1) / 2) ^ 2 +
          Real.cos (radians lat1) * Real.cos (radians lat2) *
            Real.sin (radians (lon2 - lon1) / 2) ^ 2))
        (Real.sqrt (1 - (Real.sin (radians (lat2 - lat1) / 2) ^ 2 +
          Real.cos (radians lat1) * Real.cos (radians lat2) *
            Real.sin (radians (lon2 - lon1) / 2) ^ 2)))) := rfl

/-- On the first quadrant, `atan2 (sin t) (cos t) = t`. -/
lemma atan2_sin_cos {t : ℝ} (h0 : 0 ≤ t) (hlt : t < Real.pi / 2) :
    atan2 (Real.sin t) (Real.cos t) = t := by
  have hpi := Real.pi_pos
  have hcos : 0 < Real.cos t := Real.cos_pos_of_mem_Ioo ⟨by linarith, hlt⟩
  unfold atan2
  rw [if_pos hcos, ← Real.tan_eq_sin_div_cos, Real.arctan_tan (by linarith) hlt]

/-- The haversine distance from a coordinate to itself is zero. -/
lemma calculate_distance_km_self (lat lon : ℝ) :
    calculate_distance_km lat lon lat lon = 0 := by
  rw [calculate_distance_km_eq]
  have h1 : radians (lat - lat) / 2 = 0 := by unfold radians; ring
  have h2 : radians (lon - lon) / 2 = 0 := by unfold radians; ring
  rw [h1, h2, Real.sin_zero]
  have h3 : (0 : ℝ) ^ 2 + Real.cos (radians lat) * Real.cos (radians lat) * (0 : ℝ) ^ 2 = 0 := by
    ring
  rw [h3, Real.sqrt_zero]
  norm_num [atan2, Real.arctan_zero]

/-- The haversine distance is symmetric in its two coordinate arguments. -/
lemma calculate_distance_km_comm (lat1 lon1 lat2 lon2 : ℝ) :
    calculate_distance_km lat1 lon1 lat2 lon2 = calculate_distance_km lat2 lon2 lat1 lon1 := by
  rw [calculate_distance_km_eq, calculate_distance_km_eq]
  have hlat : radians (lat1 - lat2) / 2 = -(radians (lat2 - lat1) / 2) := by
    unfold radians; ring
  have hlon : radians (lon1 - lon2) / 2 = -(radians (lon2 - lon1) / 2) := by
    unfold radians; ring
  rw [hlat, hlon]
  simp only [Real.sin_neg]
  ring_nf

/-- Haversine distance between two points on the equator (latitude 0): for a
longitude difference below 180 degrees it equals the Earth radius times the
longitude difference in radians. -/
lemma calculate_distance_km_equator (l1 l2 : ℝ) (h : |l2 - l1| < 180) :
    calculate_distance_km 0 l1 0 l2 = 6371 * (|l2 - l1| * Real.pi / 180) := by
  have hpi := Real.pi_pos
  set t : ℝ := |l2 - l1| * Real.pi / 180 / 2 with ht
  have habs : 0 ≤ |l2 - l1| := abs_nonneg _
  have h0 : 0 ≤ t := by rw [ht]; positivity
  have hlt : t < Real.pi / 2 := by
    rw [ht]
    nlinarith
  have hcos : 0 < Real.cos t := Real.cos_pos_of_mem_Ioo ⟨by linarith, hlt⟩
  have hsin : 0 ≤ Real.sin t := Real.sin_nonneg_of_nonneg_of_le_pi h0 (by linarith)
  have hsq : Real.sin (radians (l2 - l1) / 2) ^ 2 = Real.sin t ^ 2 := by
    unfold radians
    rcases abs_cases (l2 - l1) with ⟨he, _⟩ | ⟨he, _⟩
    · rw [ht, he]
    · rw [ht, he]
      have h2 : (l2 - l1) * Real.pi / 180 / 2 = -(-(l2 - l1) * Real.pi / 180 / 2) := by ring
      rw [h2, Real.sin_neg]
      ring
  rw [calculate_distance_km_eq]
  have hz : radians (0 - 0) / 2 = 0 := by unfold radians; ring
  have hc0 : radians (0 : ℝ) = 0 := by unfold radians; ring
  rw [hz, hc0, Real.sin_zero, Real.cos_zero, hsq]
  have h3 : (0 : ℝ) ^ 2 + 1 * 1 * Real.sin t ^ 2 = Real.sin t ^ 2 := by ring
  rw [h3]
  have hs1 : Real.sqrt (Real.sin t ^ 2) = Real.sin t := by
    rw [Real.sqrt_sq_eq_abs, abs_of_nonneg hsin]
  have hs2 : Real.sqrt (1 - Real.sin t ^ 2) = Real.cos t := by
    have hcs : 1 - Real.sin t ^ 2 = Real.cos t ^ 2 := by
      have := Real.sin_sq_add_cos_sq t
      linarith
    rw [hcs, Real.sqrt_sq_eq_abs, abs_of_nonneg hcos.le]
  rw [hs1, hs2, atan2_sin_cos h0 hlt, ht]
  ring

lemma find_nearest_loop_some (lat lon : ℝ) (l : List PlannedLocation) :
    ∀ b, find_nearest_loop lat lon (some b, ((locDist lat lon b : ℝ) : EReal)) l =
      (some (firstNearest lat lon b l),
        ((locDist lat lon (firstNearest lat lon b l) : ℝ) : EReal)) := by
  induction l with
  | nil => intro b; rfl
  | cons x xs ih =>
    intro b
    unfold find_nearest_loop firstNearest
    dsimp only
    by_cases hx : locDist lat lon x < locDist lat lon b
    · rw [if_pos (by exact_mod_cast hx), if_pos hx, ih]
    · rw [if_neg (by exact_mod_cast hx), if_neg hx, ih]

lemma firstNearest_le (lat lon : ℝ) (l : List PlannedLocation) :
    ∀ b, ∀ y ∈ b :: l, locDist lat lon (firstNearest lat lon b l) ≤ locDist lat lon y := by
  induction l with
  | nil =>
    intro b y hy
    rw [List.mem_singleton] at hy
    subst hy
    exact le_refl _
  | cons x xs ih =>
    intro b y hy
    unfold firstNearest
    by_cases hx : locDist lat lon x < locDist lat lon b
    · rw [if_pos hx]
      rcases List.mem_cons.mp hy with hyb | hyrest
      · subst hyb
        exact le_trans (ih x x (List.mem_cons_self x xs)) (le_of_lt hx)
      · exact ih x y hyrest
    · rw [if_neg hx]
      rcases List.mem_cons.mp hy with hyb | hyrest
      · rw [hyb]
        exact ih b b (List.mem_cons_self b xs)
      · rcases List.mem_cons.mp hyrest with hyx | hyxs
        · subst hyx
          exact le_trans (ih b b (List.mem_cons_self b xs)) (le_of_not_lt hx)
        · exact ih b y (List.mem_cons.mpr (Or.inr hyxs))

lemma firstNearest_first (lat lon : ℝ) (l : List PlannedLocation) :
    ∀ b, ∃ pre post, b :: l = pre ++ firstNearest lat lon b l :: post ∧
      ∀ x ∈ pre, locDist lat lon (firstNearest lat lon b l) < locDist lat lon x := by
  induction l with
  | nil =>
    intro b
    refine ⟨[], [], rfl, ?_⟩
    intro x hx
    exact absurd hx (List.not_mem_nil x)
  | cons x xs ih =>
    intro b
    unfold firstNearest
    by_cases hx : locDist lat lon x < locDist lat lon b
    · rw [if_pos hx]
      obtain ⟨pre1, post1, hdec, hlt⟩ := ih x
      refine ⟨b :: pre1, post1, ?_, ?_⟩
      · rw [List.cons_append, ← hdec]
      · intro y hy
        rcases List.mem_cons.mp hy with hyb | hypre
        · subst hyb
          exact lt_of_le_of_lt (firstNearest_le lat lon xs x x (List.mem_cons_self x xs)) hx
        · exact hlt y hypre
    · rw [if_neg hx]
      obtain ⟨pre1, post1, hdec, hlt⟩ := ih b
      match pre1, hdec, hlt with
      | [], hdec, hlt =>
        rw [List.nil_append] at hdec
        have hb1 : b = firstNearest lat lon b xs := ((List.cons.injEq _ _ _ _).mp hdec).1
        refine ⟨[], x :: xs, ?_, ?_⟩
        · rw [List.nil_append, ← hb1]
        · intro y hy
          exact absurd hy (List.not_mem_nil y)
      | p :: pre2, hdec, hlt =>
        rw [List.cons_append] at hdec
        have hpb : b = p := ((List.cons.injEq _ _ _ _).mp hdec).1
        have hxs : xs = pre2 ++ firstNearest lat lon b xs :: post1 :=
          ((List.cons.injEq _ _ _ _).mp hdec).2
        refine ⟨b :: x :: pre2, post1, ?_, ?_⟩
        · rw [List.cons_append, List.cons_append, ← hxs]
        · intro y hy
          have hwb : locDist lat lon (firstNearest lat lon b xs) < locDist lat lon b := by
            have hp := hlt p (List.mem_cons_self p pre2)
            rwa [← hpb] at hp
          rcases List.mem_cons.mp hy with hyb | hyrest
          · subst hyb
            exact hwb
          · rcases List.mem_cons.mp hyrest with hyx | hypre2
            · subst hyx
              exact lt_of_lt_of_le hwb (le_of_not_lt hx)
            · exact hlt y (List.mem_cons.mpr (Or.inr hypre2))

lemma find_nearest_cons (lat lon : ℝ) (x : PlannedLocation) (xs : List PlannedLocation) :
    find_nearest_planned_location lat lon (x :: xs) =
      (some (firstNearest lat lon x xs),
        ((locDist lat lon (firstNearest lat lon x xs) : ℝ) : EReal)) := by
  show find_nearest_loop lat lon (none, (⊤ : EReal)) (x :: xs) = _
  unfold find_nearest_loop
  rw [if_pos (EReal.coe_lt_top _)]
  exact find_nearest_loop_some lat lon xs x

lemma find_nearest_singleton (lat lon : ℝ) (w : PlannedLocation) :
    find_nearest_planned_location lat lon [w] =
      (some w, ((locDist lat lon w : ℝ) : EReal)) :=
  find_nearest_cons lat lon w []

lemma find_nearest_singleton_snd (lat lon : ℝ) (w : PlannedLocation) :
    (find_nearest_planned_location lat lon [w]).2 = ((locDist lat lon w : ℝ) : EReal) := by
  rw [find_nearest_singleton]

lemma dist_east_le : calculate_distance_km 0 0 0 0.004 ≤ 0.5 := by
  have habs : |(0.004 : ℝ) - 0| = 0.004 := by
    rw [sub_zero]
    exact abs_of_pos (by norm_num)
  rw [calculate_distance_km_equator 0 0.004 (by rw [habs]; norm_num), habs]
  nlinarith [Real.pi_lt_d2, Real.pi_gt_d2]

lemma dist_west_le : calculate_distance_km 0 0 0 (-0.004) ≤ 0.5 := by
  have habs : |(-0.004 : ℝ) - 0| = 0.004 := by
    rw [sub_zero, abs_of_neg (by norm_num : (-0.004 : ℝ) < 0)]
    norm_num
  rw [calculate_distance_km_equator 0 (-0.004) (by rw [habs]; norm_num), habs]
  nlinarith [Real.pi_lt_d2, Real.pi_gt_d2]

lemma dist_pair_gt : 0.5 < calculate_distance_km 0 0.004 0 (-0.004) := by
  have habs : |(-0.004 : ℝ) - 0.004| = 0.008 := by
    rw [show ((-0.004 : ℝ) - 0.004) = -0.008 by norm_num,
      abs_of_neg (by norm_num : (-0.008 : ℝ) < 0)]
    norm_num
  rw [calculate_distance_km_equator 0.004 (-0.004) (by rw [habs]; norm_num), habs]
  nlinarith [Real.pi_lt_d2, Real.pi_gt_d2]

lemma dist_wp_gt : 2 < calculate_distance_km 0 0 0 1 := by
  have habs : |(1 : ℝ) - 0| = 1 := by norm_num
  rw [calculate_distance_km_equator 0 1 (by rw [habs]; norm_num), habs]
  nlinarith [Real.pi_lt_d2, Real.pi_gt_d2]

lemma dist_far_gt : 0.5 < calculate_distance_km 0 0 0 0.02 := by
  have habs : |(0.02 : ℝ) - 0| = 0.02 := by
    rw [sub_zero]
    exact abs_of_pos (by norm_num)
  rw [calculate_distance_km_equator 0 0.02 (by rw [habs]; norm_num), habs]
  nlinarith [Real.pi_lt_d2, Real.pi_gt_d2]

lemma check_deviation_alert_cons (now : ℝ) (x : PlannedLocation) (xs : List PlannedLocation)
    (lu : LocationUpdate) (trip : Trip) :
    check_deviation_alert now (x :: xs) lu trip =
      if (find_nearest_planned_location lu.latitude lu.longitude (x :: xs)).2 >
          ((trip.deviation_threshold_km : ℝ) : EReal) then
        some
          { alert_type := "deviation"
            status := "active"
            title := "Location Deviation Detected"
            message := AlertMessage.deviationMsg
              (find_nearest_planned_location lu.latitude lu.longitude (x :: xs)).2
            latitude := lu.latitude
            longitude := lu.longitude
            distance_from_planned_km :=
              some (find_nearest_planned_location lu.latitude lu.longitude (x :: xs)).2
            triggered_at := now
            response_deadline := now + 15
            responded_at := none
            response_message := none
            user_id := lu.user_id
            trip_id := trip.id }
      else none := rfl

lemma check_stationary_alert_eq (now : ℝ) (latest : LocationUpdate)
    (rest : List LocationUpdate) (planned : List PlannedLocation) (uid : ℕ) (trip : Trip) :
    check_stationary_alert now (latest :: rest) planned uid trip =
      if (latest :: rest).length < 2 then none
      else if ∀ location ∈ rest,
          calculate_distance_km latest.latitude latest.longitude
            location.latitude location.longitude ≤ 0.5 then
        if (find_nearest_planned_location latest.latitude latest.longitude planned).2 >
            ((1 : ℝ) : EReal) then
          some
            { alert_type := "stationary"
              status := "active"
              title := "Stationary Alert"
              message := AlertMessage.stationaryMsg
                (find_nearest_planned_location latest.latitude latest.longitude planned).2
              latitude := latest.latitude
              longitude := latest.longitude
              distance_from_planned_km :=
                some (find_nearest_planned_location latest.latitude latest.longitude planned).2
              triggered_at := now
              response_deadline := now + 15
              responded_at := none
              response_message := none
              user_id := uid
              trip_id := trip.id }
        else none
      else none := rfl

end SafetyMonitor

/-- C9: the haversine distance is symmetric in its two coordinates, and the
distance from a coordinate to itself is zero. -/
theorem calculate_distance_km_symm_and_self (lat1 lon1 lat2 lon2 : ℝ) :
    SafetyMonitor.calculate_distance_km lat1 lon1 lat2 lon2 =
      SafetyMonitor.calculate_distance_km lat2 lon2 lat1 lon1 ∧
    SafetyMonitor.calculate_distance_km lat1 lon1 lat1 lon1 = 0 :=
  ⟨SafetyMonitor.calculate_distance_km_comm lat1 lon1 lat2 lon2,
    SafetyMonitor.calculate_distance_km_self lat1 lon1⟩

open SafetyMonitor

lemma stationary_pair_close : ∀ location ∈ [luOb],
    calculate_distance_km luO.latitude luO.longitude
      location.latitude location.longitude ≤ 0.5 := by
  intro location hloc
  rw [List.mem_singleton] at hloc
  subst hloc
  have h0 : calculate_distance_km luO.latitude luO.longitude
      luOb.latitude luOb.longitude = 0 := calculate_distance_km_self 0 0
  rw [h0]
  norm_num

lemma check_deviation_alert_fires :
    check_deviation_alert 0 [wpEq1] luO tripA = some devAlertEx := by
  have hc : ((tripA.deviation_threshold_km : ℝ) : EReal) <
      ((locDist luO.latitude luO.longitude wpEq1 : ℝ) : EReal) :=
    EReal.coe_lt_coe_iff.mpr dist_wp_gt
  rw [check_deviation_alert_cons, find_nearest_singleton_snd, if_pos hc]
  rfl

lemma check_stationary_alert_fires :
    check_stationary_alert 0 [luO, luOb] [wpEq1] 1 tripA = some staAlertEx := by
  have hc : ((1 : ℝ) : EReal) <
      ((locDist luO.latitude luO.longitude wpEq1 : ℝ) : EReal) :=
    EReal.coe_lt_coe_iff.mpr (lt_trans (by norm_num) dist_wp_gt)
  rw [check_stationary_alert_eq,
    if_neg (by decide : ¬([luO, luOb].length < 2)),
    if_pos stationary_pair_close, find_nearest_singleton_snd, if_pos hc]
  rfl

lemma respond_preserves_deadline (now : ℝ) (alert : SafetyAlert) (r : AlertResponse) :
    (respond_to_alert now alert r).1.response_deadline = alert.response_deadline := by
  unfold respond_to_alert
  by_cases h1 : r.response = "safe"
  · rw [if_pos h1]
  · rw [if_neg h1]
    by_cases h2 : r.response = "help"
    · rw [if_pos h2]
    · rw [if_neg h2]

lemma checkDeadline_preserves_deadline (alert : SafetyAlert) (now : ℝ) :
    (checkDeadline alert now).response_deadline = alert.response_deadline := by
  unfold checkDeadline
  by_cases h : alert.status = "active" ∧ alert.response_deadline < now
  · rw [if_pos h]
  · rw [if_neg h]

/-- Claim C1 (counterexample): responding "safe" to an alert already in the
terminal `escalated` state does not fail and does not leave the alert
unchanged: the route overwrites its status with `responded_safe`, overwrites
`responded_at`, and reports success (the source has no status check and no
`InvalidStateError`). -/
theorem respond_terminal_changes_alert :
    alertEscalated.status = "escalated" ∧
    (respond_to_alert 5 alertEscalated { response := "safe", message := none }).1.status =
      "responded_safe" ∧
    (respond_to_alert 5 alertEscalated { response := "safe", message := none }).1.responded_at =
      some 5 ∧
    (respond_to_alert 5 alertEscalated { response := "safe", message := none }).2 =
      "Alert response recorded: safe" :=
  ⟨rfl, rfl, rfl, rfl⟩

/-- Claim C1 (amended): the respond route performs no state-machine check: for
every alert, whatever its current status (terminal or not), responding "safe"
or "help" overwrites the status and response message, always overwrites
`responded_at` with the current time, and reports success; no
`InvalidStateError` path exists. -/
theorem respond_ignores_status (now : ℝ) (alert : SafetyAlert) (m : Option String) :
    (respond_to_alert now alert { response := "safe", message := m }).1.status =
      "responded_safe" ∧
    (respond_to_alert now alert { response := "help", message := m }).1.status =
      "responded_help" ∧
    (respond_to_alert now alert { response := "safe", message := m }).1.responded_at = some now ∧
    (respond_to_alert now alert { response := "help", message := m }).1.responded_at = some now ∧
    (respond_to_alert now alert { response := "safe", message := m }).2 =
      "Alert response recorded: safe" := by
  refine ⟨?_, ?_, ?_, ?_, ?_⟩ <;> rfl

/-- Claim C2: for an alert in the `active` state, `checkDeadline` transitions
it to `escalated` exactly when the current time is strictly past the response
deadline, and leaves it entirely unchanged otherwise. -/
theorem checkDeadline_escalates_iff (alert : SafetyAlert) (now : ℝ)
    (h : alert.status = "active") :
    (alert.response_deadline < now →
      checkDeadline alert now = { alert with status := "escalated" }) ∧
    (now ≤ alert.response_deadline → checkDeadline alert now = alert) ∧
    ((checkDeadline alert now).status = "escalated" ↔ alert.response_deadline < now) := by
  by_cases hlt : alert.response_deadline < now
  · have heq : checkDeadline alert now = { alert with status := "escalated" } := by
      unfold checkDeadline
      rw [if_pos ⟨h, hlt⟩]
    refine ⟨fun _ => heq, fun hle => absurd hlt (not_lt.mpr hle), ?_⟩
    rw [heq]
    exact ⟨fun _ => hlt, fun _ => rfl⟩
  · have heq : checkDeadline alert now = alert := by
      unfold checkDeadline
      rw [if_neg (fun hc => hlt hc.2)]
    refine ⟨fun hlt2 => absurd hlt2 hlt, fun _ => heq, ?_⟩
    rw [heq, h]
    constructor
    · intro habs
      exact absurd habs (by decide)
    · intro h2
      exact absurd h2 hlt

/-- Claim C2 witness: a concrete active alert with deadline 100 stays unchanged
when checked at time 99 and becomes `escalated` when checked at time 101. -/
theorem checkDeadline_escalates_iff_witness :
    checkDeadline alertActive 99 = alertActive ∧
    checkDeadline alertActive 101 = { alertActive with status := "escalated" } ∧
    (checkDeadline alertActive 101).status = "escalated" :=
  ⟨(checkDeadline_escalates_iff alertActive 99 rfl).2.1 (by norm_num [alertActive]),
   (checkDeadline_escalates_iff alertActive 101 rfl).1 (by norm_num [alertActive]),
   (checkDeadline_escalates_iff alertActive 101 rfl).2.2.mpr (by norm_num [alertActive])⟩

/-- Claim C3 (counterexample): with a stationary two-sample window and an empty
planned-location list, the stationarity check does not return none: the nearest
distance is `inf`, which exceeds the 1 km stationary radius, so an alert is
created. -/
theorem stationary_empty_planned_fires :
    (check_stationary_alert 0 [luO, luOb] [] 1 tripA).isSome = true := by
  have hc : ((1 : ℝ) : EReal) <
      (find_nearest_planned_location luO.latitude luO.longitude []).2 :=
    EReal.coe_lt_top 1
  rw [check_stationary_alert_eq,
    if_neg (by decide : ¬([luO, luOb].length < 2)),
    if_pos stationary_pair_close, if_pos hc]
  rfl

/-- Claim C3 (amended): the deviation detector returns none on an empty
waypoint list, and the stationarity detector returns none on a window of fewer
than two samples; but, contrary to the claim, on a stationary window with an
empty planned-location list the stationarity detector produces an alert (the
nearest-waypoint distance is `inf`, which is greater than 1 km). -/
theorem detectors_on_empty_collections (now : ℝ) (lu : LocationUpdate) (trip : Trip)
    (uid : ℕ) (recent : List LocationUpdate) :
    check_deviation_alert now [] lu trip = none ∧
    (recent.length < 2 → check_stationary_alert now recent [] uid trip = none) ∧
    (∀ latest rest, recent = latest :: rest → ¬recent.length < 2 →
      (∀ x ∈ rest, calculate_distance_km latest.latitude latest.longitude
        x.latitude x.longitude ≤ 0.5) →
      (check_stationary_alert now recent [] uid trip).isSome = true) := by
  refine ⟨rfl, ?_, ?_⟩
  · intro hlen
    unfold check_stationary_alert
    rw [if_pos hlen]
  · intro latest rest hrec hlen hall
    subst hrec
    have hc : ((1 : ℝ) : EReal) <
        (find_nearest_planned_location latest.latitude latest.longitude []).2 :=
      EReal.coe_lt_top 1
    rw [check_stationary_alert_eq, if_neg hlen, if_pos hall, if_pos hc]
    rfl

/-- Claim C3 witness: the amended statement evaluated on concrete inputs. -/
theorem detectors_on_empty_collections_witness :
    check_deviation_alert 0 [] luO tripA = none ∧
    check_stationary_alert 0 [luO] [] 1 tripA = none ∧
    (check_stationary_alert 0 [luO, luOb] [] 1 tripA).isSome = true :=
  ⟨(detectors_on_empty_collections 0 luO tripA 1 [luO]).1,
   (detectors_on_empty_collections 0 luO tripA 1 [luO]).2.1 (by decide),
   (detectors_on_empty_collections 0 luO tripA 1 [luO, luOb]).2.2 luO [luOb] rfl (by decide)
     stationary_pair_close⟩

/-- Claim C4 (counterexample): a three-sample window whose two older samples
are more than 0.5 km apart from each other, while each is within 0.5 km of the
latest sample: the source only compares samples against the latest one, so it
still fires a stationary alert. -/
theorem stationary_far_pair_fires :
    0.5 < calculate_distance_km luEast.latitude luEast.longitude
      luWest.latitude luWest.longitude ∧
    (check_stationary_alert 0 [luO, luEast, luWest] [wpEq1] 1 tripA).isSome = true := by
  constructor
  · exact dist_pair_gt
  · have hall : ∀ location ∈ [luEast, luWest],
        calculate_distance_km luO.latitude luO.longitude
          location.latitude location.longitude ≤ 0.5 := by
      intro location hloc
      rcases List.mem_cons.mp hloc with h1 | h2
      · subst h1
        exact dist_east_le
      · rw [List.mem_singleton] at h2
        subst h2
        exact dist_west_le
    have hc : ((1 : ℝ) : EReal) <
        ((locDist luO.latitude luO.longitude wpEq1 : ℝ) : EReal) :=
      EReal.coe_lt_coe_iff.mpr (lt_trans (by norm_num) dist_wp_gt)
    rw [check_stationary_alert_eq,
      if_neg (by decide : ¬([luO, luEast, luWest].length < 2)),
      if_pos hall, find_nearest_singleton_snd, if_pos hc]
    rfl

/-- Claim C4 (amended): the source checks distances only from the latest
sample: whenever some sample of the window is more than 0.5 km away from the
latest (first) sample, no stationary alert fires. -/
theorem stationary_movement_from_latest (now : ℝ) (recent : List LocationUpdate)
    (planned : List PlannedLocation) (uid : ℕ) (trip : Trip)
    (latest : LocationUpdate) (rest : List LocationUpdate)
    (hrec : recent = latest :: rest)
    (hmove : ∃ x ∈ rest, 0.5 < calculate_distance_km latest.latitude latest.longitude
      x.latitude x.longitude) :
    check_stationary_alert now recent planned uid trip = none := by
  subst hrec
  rw [check_stationary_alert_eq]
  by_cases hlen : (latest :: rest).length < 2
  · rw [if_pos hlen]
  · have hm : ¬(∀ location ∈ rest, calculate_distance_km latest.latitude latest.longitude
        location.latitude location.longitude ≤ 0.5) := by
      intro hall
      obtain ⟨x, hx, hgt⟩ := hmove
      exact absurd (hall x hx) (not_le.mpr hgt)
    rw [if_neg hlen, if_neg hm]

/-- Claim C4 witness: a window whose second sample is about 2.2 km from the
latest sample produces no stationary alert. -/
theorem stationary_movement_from_latest_witness :
    check_stationary_alert 0 [luO, luFar] [wpEq1] 1 tripA = none :=
  stationary_movement_from_latest 0 [luO, luFar] [wpEq1] 1 tripA luO [luFar] rfl
    ⟨luFar, List.mem_singleton.mpr rfl, dist_far_gt⟩

/-- Claim C5: with a non-empty waypoint list, `check_deviation_alert` returns
an alert exactly when the nearest-waypoint distance strictly exceeds the trip's
deviation threshold; at exactly the threshold it returns none; and every alert
it returns has kind `deviation`, status `active`, and records exactly the
computed nearest distance in `distance_from_planned_km`. -/
theorem check_deviation_alert_threshold (now : ℝ) (planned : List PlannedLocation)
    (lu : LocationUpdate) (trip : Trip) (h : planned ≠ []) :
    ((check_deviation_alert now planned lu trip).isSome ↔
      ((trip.deviation_threshold_km : ℝ) : EReal) <
        (find_nearest_planned_location lu.latitude lu.longitude planned).2) ∧
    ((find_nearest_planned_location lu.latitude lu.longitude planned).2 =
        ((trip.deviation_threshold_km : ℝ) : EReal) →
      check_deviation_alert now planned lu trip = none) ∧
    (∀ a, check_deviation_alert now planned lu trip = some a →
      a.alert_type = "deviation" ∧ a.status = "active" ∧
      a.distance_from_planned_km =
        some (find_nearest_planned_location lu.latitude lu.longitude planned).2) := by
  obtain ⟨x, xs, rfl⟩ : ∃ x xs, planned = x :: xs := by
    cases planned with
    | nil => exact absurd rfl h
    | cons x xs => exact ⟨x, xs, rfl⟩
  rw [check_deviation_alert_cons]
  by_cases hc : (find_nearest_planned_location lu.latitude lu.longitude (x :: xs)).2 >
      ((trip.deviation_threshold_km : ℝ) : EReal)
  · rw [if_pos hc]
    refine ⟨⟨fun _ => hc, fun _ => rfl⟩, ?_, ?_⟩
    · intro heq
      rw [heq] at hc
      exact absurd hc (lt_irrefl _)
    · intro a ha
      injection ha with ha'
      subst ha'
      exact ⟨rfl, rfl, rfl⟩
  · rw [if_neg hc]
    refine ⟨?_, fun _ => rfl, ?_⟩
    · constructor
      · intro habs
        exact absurd habs (by simp)
      · intro hlt
        exact absurd hlt hc
    · intro a ha
      exact Option.noConfusion ha

/-- Claim C5 witness: the sample at the origin is about 111 km from the single
waypoint at longitude 1 degree, which exceeds the 2 km threshold, so an alert
is produced. -/
theorem check_deviation_alert_threshold_witness :
    (check_deviation_alert 0 [wpEq1] luO tripA).isSome = true :=
  (check_deviation_alert_threshold 0 [wpEq1] luO tripA (by simp)).1.mpr
    (by rw [find_nearest_singleton_snd]; exact EReal.coe_lt_coe_iff.mpr dist_wp_gt)

/-- Claim C6: every alert created by either detector satisfies
`response_deadline = triggered_at + 15` (minutes), and neither the respond
route nor the deadline check ever modifies `response_deadline`. -/
theorem response_deadline_invariant (now now2 : ℝ) (planned : List PlannedLocation)
    (recent : List LocationUpdate) (lu : LocationUpdate) (trip : Trip) (uid : ℕ)
    (a b : SafetyAlert) (r : AlertResponse)
    (hdev : check_deviation_alert now planned lu trip = some a)
    (hsta : check_stationary_alert now recent planned uid trip = some b) :
    a.response_deadline = a.triggered_at + 15 ∧
    b.response_deadline = b.triggered_at + 15 ∧
    (respond_to_alert now2 a r).1.response_deadline = a.response_deadline ∧
    (checkDeadline a now2).response_deadline = a.response_deadline ∧
    (respond_to_alert now2 b r).1.response_deadline = b.response_deadline ∧
    (checkDeadline b now2).response_deadline = b.response_deadline := by
  refine ⟨?_, ?_, respond_preserves_deadline now2 a r, checkDeadline_preserves_deadline a now2,
    respond_preserves_deadline now2 b r, checkDeadline_preserves_deadline b now2⟩
  · cases planned with
    | nil => exact Option.noConfusion hdev
    | cons x xs =>
      rw [check_deviation_alert_cons] at hdev
      by_cases hc : (find_nearest_planned_location lu.latitude lu.longitude (x :: xs)).2 >
          ((trip.deviation_threshold_km : ℝ) : EReal)
      · rw [if_pos hc] at hdev
        injection hdev with h'
        subst h'
        rfl
      · rw [if_neg hc] at hdev
        exact Option.noConfusion hdev
  · cases recent with
    | nil =>
      unfold check_stationary_alert at hsta
      rw [if_pos (by decide : ([] : List LocationUpdate).length < 2)] at hsta
      exact Option.noConfusion hsta
    | cons latest rest =>
      rw [check_stationary_alert_eq] at hsta
      by_cases hlen : (latest :: rest).length < 2
      · rw [if_pos hlen] at hsta
        exact Option.noConfusion hsta
      · rw [if_neg hlen] at hsta
        by_cases hall : ∀ location ∈ rest,
            calculate_distance_km latest.latitude latest.longitude
              location.latitude location.longitude ≤ 0.5
        · rw [if_pos hall] at hsta
          by_cases hdist : (find_nearest_planned_location latest.latitude
              latest.longitude planned).2 > ((1 : ℝ) : EReal)
          · rw [if_pos hdist] at hsta
            injection hsta with h'
            subst h'
            rfl
          · rw [if_neg hdist] at hsta
            exact Option.noConfusion hsta
        · rw [if_neg hall] at hsta
          exact Option.noConfusion hsta

/-- Claim C6 witness: the two concrete alerts produced by the detectors, with
the concrete respond and deadline-check calls leaving their deadlines alone. -/
theorem response_deadline_invariant_witness :
    devAlertEx.response_deadline = devAlertEx.triggered_at + 15 ∧
    staAlertEx.response_deadline = staAlertEx.triggered_at + 15 ∧
    (respond_to_alert 99 devAlertEx { response := "safe", message := none }).1.response_deadline =
      devAlertEx.response_deadline ∧
    (checkDeadline devAlertEx 99).response_deadline = devAlertEx.response_deadline ∧
    (respond_to_alert 99 staAlertEx { response := "safe", message := none }).1.response_deadline =
      staAlertEx.response_deadline ∧
    (checkDeadline staAlertEx 99).response_deadline = staAlertEx.response_deadline :=
  response_deadline_invariant 0 99 [wpEq1] [luO, luOb] luO tripA 1 devAlertEx staAlertEx
    { response := "safe", message := none } check_deviation_alert_fires
    check_stationary_alert_fires

/-- Claim C7: with an empty waypoint list the deviation detector returns none
for every sample, trip and time. -/
theorem check_deviation_alert_empty (now : ℝ) (lu : LocationUpdate) (trip : Trip) :
    check_deviation_alert now [] lu trip = none := rfl

/-- Claim C8: `find_nearest_planned_location` returns `(none, inf)` on an empty
list; on a non-empty list it returns a waypoint of minimal distance together
with that distance, and under ties the first such waypoint in iteration
order (every earlier waypoint is strictly farther). -/
theorem find_nearest_planned_location_correct (lat lon : ℝ) (l : List PlannedLocation) :
    (l = [] → find_nearest_planned_location lat lon l = (none, (⊤ : EReal))) ∧
    (l ≠ [] → ∃ w pre post,
      find_nearest_planned_location lat lon l = (some w, ((locDist lat lon w : ℝ) : EReal)) ∧
      l = pre ++ w :: post ∧
      (∀ x ∈ l, locDist lat lon w ≤ locDist lat lon x) ∧
      (∀ x ∈ pre, locDist lat lon w < locDist lat lon x)) := by
  constructor
  · intro h
    subst h
    rfl
  · intro h
    obtain ⟨x, xs, rfl⟩ : ∃ x xs, l = x :: xs := by
      cases l with
      | nil => exact absurd rfl h
      | cons x xs => exact ⟨x, xs, rfl⟩
    obtain ⟨pre, post, hdec, hlt⟩ := firstNearest_first lat lon xs x
    exact ⟨firstNearest lat lon x xs, pre, post, find_nearest_cons lat lon x xs, hdec,
      firstNearest_le lat lon xs x, hlt⟩

/-- Claim C8 witness: the empty list gives `(none, inf)`; a singleton list
gives back its only waypoint. -/
theorem find_nearest_planned_location_correct_witness :
    find_nearest_planned_location 0 0 [] = (none, (⊤ : EReal)) ∧
    (find_nearest_planned_location 0 0 [wpEq1]).1 = some wpEq1 := by
  constructor
  · exact (find_nearest_planned_location_correct 0 0 []).1 rfl
  · obtain ⟨w, pre, post, heq, hdec, hmin, hfirst⟩ :=
      (find_nearest_planned_location_correct 0 0 [wpEq1]).2 (by simp)
    have hw : w = wpEq1 := by
      cases pre with
      | nil =>
        rw [List.nil_append] at hdec
        exact (((List.cons.injEq _ _ _ _).mp hdec).1).symm
      | cons p ps =>
        have hlen := congrArg List.length hdec
        simp only [List.length_cons, List.length_append, List.length_nil] at hlen
        omega
    rw [heq, hw]

/-- Claim C10: responding with a kind that is neither "safe" nor "help" leaves
the alert's status and response message unchanged, still overwrites
`responded_at` with the current time, and reports success to the caller. -/
theorem respond_unknown_kind (now : ℝ) (alert : SafetyAlert) (r : AlertResponse)
    (h1 : r.response ≠ "safe") (h2 : r.response ≠ "help") :
    (respond_to_alert now alert r).1.status = alert.status ∧
    (respond_to_alert now alert r).1.response_message = alert.response_message ∧
    (respond_to_alert now alert r).1.responded_at = some now ∧
    (respond_to_alert now alert r).2 = "Alert response recorded: " ++ r.response := by
  have heq : respond_to_alert now alert r =
      ({ alert with responded_at := some now }, "Alert response recorded: " ++ r.response) := by
    unfold respond_to_alert
    rw [if_neg h1, if_neg h2]
  rw [heq]
  exact ⟨rfl, rfl, rfl, rfl⟩

/-- Claim C10 witness: responding "maybe" to a concrete active alert. -/
theorem respond_unknown_kind_witness :
    (respond_to_alert 7 alertActive { response := "maybe", message := none }).1.status =
      alertActive.status ∧
    (respond_to_alert 7 alertActive { response := "maybe", message := none }).1.response_message =
      alertActive.response_message ∧
    (respond_to_alert 7 alertActive { response := "maybe", message := none }).1.responded_at =
      some 7 ∧
    (respond_to_alert 7 alertActive { response := "maybe", message := none }).2 =
      "Alert response recorded: " ++ "maybe" :=
  respond_unknown_kind 7 alertActive { response := "maybe", message := none }
    (by decide) (by decide)
